import Mathlib

/-!
Verification of the Babelo translator: a shallow embedding of the
frontend `TranslatorApp` logic (auto-translate effect, model selection,
language swapping, recent-language storage, speech-synthesis language
support) together with a spec-modelled translation dispatcher and
download coordinator, and proofs of the stated properties.
-/

namespace Babelo

/-- Status record returned by `GET /model/status` (ModelSelector.tsx,
`ModelStatus` interface). -/
structure ModelStatus where
  model_id : String
  model_name : String
  cache_dir : String
  model_path : String
  is_downloaded : Bool
  is_loaded : Bool
deriving Repr, DecidableEq

/-- The JS expression `modelStatus?.is_downloaded` coerced to a boolean:
`undefined` (no status yet) is falsy, otherwise the flag itself. -/
def statusDownloaded : Option ModelStatus → Bool
  | none => false
  | some st => st.is_downloaded

/-- React state of `TranslatorApp` (src/unnamed/part_003) relevant to the
translate path: the two text panels, the selected language codes, the
selected model id and its fetched status, and the error banner. -/
structure AppState where
  inputText : String
  translatedText : String
  sourceLanguage : String
  targetLanguage : String
  selectedModelId : String
  modelStatus : Option ModelStatus
  error : String
deriving Repr, DecidableEq

/-- JSON body of the `POST /translate` request built by the auto-translate
effect (src/unnamed/part_003, lines 317-330). -/
structure TranslateRequestBody where
  text : String
  source_language_code : String
  target_language_code : String
  model_id : String
deriving Repr, DecidableEq

/-- What the auto-translate `useEffect` does as a function of the current
state: clear the output (empty trimmed input), return without scheduling
anything, or schedule a `/translate` request with a concrete body. -/
inductive AutoTranslateAction where
  | clearOutput
  | skip
  | request (body : TranslateRequestBody)
deriving Repr, DecidableEq

/-- JavaScript `String.prototype.trim()`: drop whitespace characters from
both ends of the string. -/
def jsTrim (s : String) : String :=
  String.mk (((s.toList.dropWhile Char.isWhitespace).reverse.dropWhile
    Char.isWhitespace).reverse)

/-- The auto-translate effect of `TranslatorApp` (src/unnamed/part_003,
lines 291-353): `if (!inputText.trim())` clear output and return;
`if (!sourceLanguage || !targetLanguage)` return; `if
(!modelStatus?.is_downloaded)` return; otherwise issue the fetch whose
body copies the current input text, language codes and model id. -/
def autoTranslateEffect (s : AppState) : AutoTranslateAction :=
  if jsTrim s.inputText = "" then
    .clearOutput
  else if s.sourceLanguage = "" ∨ s.targetLanguage = "" then
    .skip
  else if !(statusDownloaded s.modelStatus) then
    .skip
  else
    .request
      { text := s.inputText
        source_language_code := s.sourceLanguage
        target_language_code := s.targetLanguage
        model_id := s.selectedModelId }

/-- Effect of the clear-output branch (`setTranslatedText("");
setError("")`) on the component state. -/
def applyClearOutput (s : AppState) : AppState :=
  { s with translatedText := "", error := "" }

/-- Successful `/translate` response body. -/
structure TranslateResponse where
  translated_text : String
deriving Repr, DecidableEq

/-- Effect of a successful `/translate` response:
`setTranslatedText(data.translated_text)` (src/unnamed/part_003,
lines 337-338); the error banner stays cleared. -/
def applyTranslateSuccess (s : AppState) (resp : TranslateResponse) : AppState :=
  { s with translatedText := resp.translated_text }

/-- Errors of the Translation Dispatcher taxonomy (spec §7) that the
dispatch path can produce. -/
inductive DispatchError where
  | UnknownBackend
  | EmptyInput
  | ModelNotReady
  | InvalidLanguageCode
  | InferenceError
deriving Repr, DecidableEq

/-- Modelled from the spec: environment of the Translation Dispatcher
(spec §4.6), whose backend implementation is not under src/. It holds the
registry of known backend identifiers, the downloaded+verified check, and
each backend's own opaque translation capability. -/
structure DispatcherEnv where
  knownBackends : List String
  isDownloadedVerified : String → Bool
  backendTranslate : String → String → String → String → Except DispatchError String

/-- Modelled from the spec: `translate(backend_id, text, source_code,
target_code)` (spec §4.6). Step 1 validates the trimmed text is non-empty
(`EmptyInput`); step 2 resolves the descriptor (`UnknownBackend`); step 3
requires downloaded+verified (`ModelNotReady`); step 5 invokes the
backend's capability with the caller's text and codes unchanged; step 6
returns the result unmodified. -/
def dispatchTranslate (env : DispatcherEnv)
    (backend_id text source_code target_code : String) :
    Except DispatchError String :=
  if jsTrim text = "" then
    .error .EmptyInput
  else if !(env.knownBackends.contains backend_id) then
    .error .UnknownBackend
  else if !(env.isDownloadedVerified backend_id) then
    .error .ModelNotReady
  else
    env.backendTranslate backend_id text source_code target_code

/-- React state of the `ModelSelector` component
(src/frontend/src/components/ModelSelector.tsx) relevant to selection:
the selected model id and the fetched status map (`modelStatuses[id]` is
`undefined` for an id with no fetched status). -/
structure SelectorState where
  selectedModelId : String
  modelStatuses : String → Option ModelStatus

/-- `handleModelSelect` (ModelSelector.tsx, lines 79-87): looks up the
status of the chosen model; if `!status?.is_downloaded` it returns
without selecting; otherwise it calls `onModelChange(modelId)` (which
sets the selected model id) and persists the choice. -/
def handleModelSelect (st : SelectorState) (modelId : String) : SelectorState :=
  if !(statusDownloaded (st.modelStatuses modelId)) then
    st
  else
    { st with selectedModelId := modelId }

/-- JSON values as stored in `localStorage` (the parse of the stored
string in `getRecentLanguages`). -/
inductive Json where
  | null
  | bool (b : Bool)
  | num (n : Int)
  | str (s : String)
  | arr (xs : List Json)
  | obj (fields : List (String × Json))
deriving Repr

/-- `localStorage` contents: each key holds a parsed JSON value or is
absent. -/
def Store := String → Option Json

/-- `MAX_RECENT_LANGUAGES` (src/frontend/src/utils/constants.ts). -/
def MAX_RECENT_LANGUAGES : Nat := 5

/-- Body of `getRecentLanguages` after `JSON.parse`: if the stored value
is an array, keep its string elements; otherwise (absent, non-array, or
parse failure) return the empty list. -/
def parseStoredLanguages : Option Json → List String
  | some (Json.arr xs) =>
      xs.filterMap fun j =>
        match j with
        | Json.str s => some s
        | _ => none
  | _ => []

/-- `getRecentLanguages` (src/frontend/src/utils/languageStorage.ts,
lines 3-16). -/
def getRecentLanguages (store : Store) (key : String) : List String :=
  parseStoredLanguages (store key)

/-- `addRecentLanguage` (src/frontend/src/utils/languageStorage.ts,
lines 18-27): prepend the code to the previous list with the code
filtered out, truncate to `MAX_RECENT_LANGUAGES`, and store the result
under the key. -/
def addRecentLanguage (store : Store) (key code : String) : Store :=
  let recents := getRecentLanguages store key
  let updated := (code :: recents.filter (fun c => c ≠ code)).take MAX_RECENT_LANGUAGES
  fun k => if k = key then some (Json.arr (updated.map Json.str)) else store k

/-- `LS_SOURCE_LANGS_KEY` (constants.ts). -/
def LS_SOURCE_LANGS_KEY : String := "bab_source_languages"

/-- `LS_TARGET_LANGS_KEY` (constants.ts). -/
def LS_TARGET_LANGS_KEY : String := "bab_target_languages"

/-- Component state of `TranslatorApp` together with the browser's
`localStorage`, needed because the language setters also record recent
languages. -/
structure FullState where
  app : AppState
  store : Store

/-- `setSourceLanguage` (src/unnamed/part_003, lines 202-205): set the
state and, when the code is non-empty (truthy), record it as a recent
source language. -/
def setSourceLanguage (s : FullState) (code : String) : FullState :=
  { app := { s.app with sourceLanguage := code }
    store := if code ≠ "" then addRecentLanguage s.store LS_SOURCE_LANGS_KEY code else s.store }

/-- `setTargetLanguage` (src/unnamed/part_003, lines 207-210). -/
def setTargetLanguage (s : FullState) (code : String) : FullState :=
  { app := { s.app with targetLanguage := code }
    store := if code ≠ "" then addRecentLanguage s.store LS_TARGET_LANGS_KEY code else s.store }

/-- `handleSwapLanguages` (src/unnamed/part_003, lines 398-406 and
src/unnamed/part_010, lines 696-705): exchange the two language codes via
the recording setters, then exchange the input and translated texts. All
reads use the values captured at the start of the handler. -/
def handleSwapLanguages (s : FullState) : FullState :=
  let tempLang := s.app.sourceLanguage
  let s1 := setSourceLanguage s s.app.targetLanguage
  let s2 := setTargetLanguage s1 tempLang
  let tempText := s.app.inputText
  { s2 with app := { s2.app with inputText := s.app.translatedText, translatedText := tempText } }

/-- A `Language` entry of the frontend's language list
(`LanguageSelector`). -/
structure Language where
  name : String
  code : String
deriving Repr, DecidableEq

/-- The language list built by `fetchLanguages` (src/unnamed/part_003,
lines 240-245): `Object.entries(data.languages)` enumerated in order,
each entry `[name, code]` mapped to `{ name, code }`. -/
def buildLanguageList (table : List (String × String)) : List Language :=
  table.map fun p => { name := p.1, code := p.2 }

/-- A browser speech-synthesis voice as used by `useSpeechSynthesis`
(only the fields the hook reads). -/
structure Voice where
  name : String
  lang : String
deriving Repr, DecidableEq

/-- `NLLB_TO_BCP47` (src/src/web-frontend/src/hooks/useSpeechSynthesis.ts,
lines 18-59): the static table from NLLB language codes to BCP-47 codes. -/
def NLLB_TO_BCP47 : List (String × List String) :=
  [("eng_Latn", ["en"]),
   ("spa_Latn", ["es"]),
   ("fra_Latn", ["fr"]),
   ("deu_Latn", ["de"]),
   ("ita_Latn", ["it"]),
   ("por_Latn", ["pt"]),
   ("nld_Latn", ["nl"]),
   ("pol_Latn", ["pl"]),
   ("rus_Cyrl", ["ru"]),
   ("ukr_Cyrl", ["uk"]),
   ("zho_Hans", ["zh-CN", "zh"]),
   ("zho_Hant", ["zh-TW", "zh-HK"]),
   ("jpn_Jpan", ["ja"]),
   ("kor_Hang", ["ko"]),
   ("arb_Arab", ["ar"]),
   ("hin_Deva", ["hi"]),
   ("ben_Beng", ["bn"]),
   ("tur_Latn", ["tr"]),
   ("vie_Latn", ["vi"]),
   ("tha_Thai", ["th"]),
   ("ind_Latn", ["id"]),
   ("msa_Latn", ["ms"]),
   ("swe_Latn", ["sv"]),
   ("dan_Latn", ["da"]),
   ("nor_Latn", ["no", "nb"]),
   ("fin_Latn", ["fi"]),
   ("ces_Latn", ["cs"]),
   ("ell_Grek", ["el"]),
   ("hun_Latn", ["hu"]),
   ("ron_Latn", ["ro"]),
   ("heb_Hebr", ["he"]),
   ("cat_Latn", ["ca"]),
   ("slk_Latn", ["sk"]),
   ("bul_Cyrl", ["bg"]),
   ("hrv_Latn", ["hr"]),
   ("lit_Latn", ["lt"]),
   ("slv_Latn", ["sl"]),
   ("lvs_Latn", ["lv"]),
   ("est_Latn", ["et"]),
   ("tgl_Latn", ["tl", "fil"])]

/-- `nllbToBcp47` (useSpeechSynthesis.ts, lines 61-63):
`NLLB_TO_BCP47[nllbCode] || []`. -/
def nllbToBcp47 (nllbCode : String) : List String :=
  match NLLB_TO_BCP47.find? (fun p => p.1 == nllbCode) with
  | some p => p.2
  | none => []

/-- The per-voice match predicate inside `getVoicesForLanguage`
(useSpeechSynthesis.ts, lines 99-109): the voice's lowercased BCP-47 tag
equals a mapped code, starts with it followed by a hyphen, or has it as
its primary subtag. -/
def voiceMatchesCodes (bcp47Codes : List String) (v : Voice) : Bool :=
  let voiceLang := v.lang.toLower
  bcp47Codes.any fun code =>
    let lowerCode := code.toLower
    voiceLang == lowerCode ||
      voiceLang.startsWith (lowerCode ++ "-") ||
      (voiceLang.splitOn "-").headD "" == lowerCode

/-- `getVoicesForLanguage` (useSpeechSynthesis.ts, lines 94-112),
parametrized by the loaded voice list. -/
def getVoicesForLanguage (voices : List Voice) (nllbLangCode : String) : List Voice :=
  let bcp47Codes := nllbToBcp47 nllbLangCode
  if bcp47Codes.isEmpty then []
  else voices.filter (voiceMatchesCodes bcp47Codes)

/-- `isLanguageSupported` (useSpeechSynthesis.ts, lines 114-119):
`getVoicesForLanguage(nllbLangCode).length > 0`. -/
def isLanguageSupported (voices : List Voice) (nllbLangCode : String) : Bool :=
  decide (0 < (getVoicesForLanguage voices nllbLangCode).length)

/-- Backend descriptor (spec §3): identifier, remote source reference,
human metadata, and the `requires_auth` flag. -/
structure BackendDescriptor where
  identifier : String
  repo_id : String
  display_name : String
  size_estimate : String
  requires_auth : Bool
deriving Repr, DecidableEq

/-- Modelled from the spec: the Download Coordinator's per-backend state
(spec §3, §4.3), whose backend implementation is not under src/:
whether the Artifact Store reports the backend present, whether a
DownloadTask is in flight, how many callers await that task, and how
many network transfers have been started on the transport. -/
structure CoordState where
  present : Bool
  inflight : Bool
  waiters : Nat
  transfers : Nat
deriving Repr, DecidableEq

/-- Download Coordinator errors (spec §4.3, §7). -/
inductive CoordError where
  | AuthenticationRequired
  | DownloadFailed
deriving Repr, DecidableEq

/-- What a single `ensure_downloaded` caller observes on arrival: an
immediate outcome, or registration as a waiter on the in-flight task. -/
inductive ArriveResult where
  | done (r : Except CoordError Unit)
  | awaiting
deriving Repr

/-- Modelled from the spec: one caller entering
`ensure_downloaded(id, force=false)` (spec §4.3). If the artifacts are
already present, return immediately with no network activity; if a
DownloadTask is in flight, await it instead of starting a duplicate
transfer; if the descriptor requires auth and no credential is in the
environment, fail fast with `AuthenticationRequired` before any network
I/O; otherwise create the DownloadTask and start the one transfer,
awaiting it like every other caller. -/
def ensureDownloadedArrive (desc : BackendDescriptor) (credential : Option String)
    (st : CoordState) : CoordState × ArriveResult :=
  if st.present then
    (st, .done (.ok ()))
  else if st.inflight then
    ({ st with waiters := st.waiters + 1 }, .awaiting)
  else if desc.requires_auth && credential.isNone then
    (st, .done (.error .AuthenticationRequired))
  else
    ({ st with inflight := true, waiters := st.waiters + 1, transfers := st.transfers + 1 },
      .awaiting)

/-- Modelled from the spec: N callers arriving concurrently at
`ensure_downloaded(id)`, interleaved one at a time (their arrival order
is the only nondeterminism, and the state updates are atomic per §5). -/
def arriveN (desc : BackendDescriptor) (credential : Option String) :
    Nat → CoordState → CoordState
  | 0, st => st
  | n + 1, st => arriveN desc credential n (ensureDownloadedArrive desc credential st).1

/-- Modelled from the spec: successful completion of the in-flight
DownloadTask (spec §4.3): the task is removed from the in-flight set, the
Artifact Store subsequently reports the backend present, and every waiter
observes success. -/
def completeTask (st : CoordState) : CoordState × List (Except CoordError Unit) :=
  if st.inflight then
    ({ st with present := true, inflight := false, waiters := 0 },
      List.replicate st.waiters (.ok ()))
  else
    (st, [])

/-- C1: if the input text is empty after trimming whitespace, the
auto-translate effect clears the translated output and never issues a
translate request, and the spec-modelled dispatcher fails such input with
`EmptyInput`. -/
theorem empty_input_clears_and_never_requests (s : AppState) (env : DispatcherEnv)
    (backend_id source_code target_code : String)
    (h : jsTrim s.inputText = "") :
    autoTranslateEffect s = AutoTranslateAction.clearOutput ∧
    (∀ b, autoTranslateEffect s ≠ AutoTranslateAction.request b) ∧
    (applyClearOutput s).translatedText = "" ∧
    dispatchTranslate env backend_id s.inputText source_code target_code =
      Except.error DispatchError.EmptyInput := by
  refine ⟨?_, ?_, rfl, ?_⟩
  · simp [autoTranslateEffect, h]
  · intro b
    simp [autoTranslateEffect, h]
  · simp [dispatchTranslate, h]

/-- Witness for C1 at a concrete whitespace-only input. -/
theorem empty_input_clears_and_never_requests_witness :
    jsTrim "  " = "" ∧
    autoTranslateEffect
      { inputText := "  ", translatedText := "stale", sourceLanguage := "eng_Latn",
        targetLanguage := "fra_Latn", selectedModelId := "nllb",
        modelStatus := none, error := "" } = AutoTranslateAction.clearOutput :=
  ⟨by decide,
    (empty_input_clears_and_never_requests
      { inputText := "  ", translatedText := "stale", sourceLanguage := "eng_Latn",
        targetLanguage := "fra_Latn", selectedModelId := "nllb",
        modelStatus := none, error := "" }
      { knownBackends := ["nllb"], isDownloadedVerified := fun _ => true,
        backendTranslate := fun _ _ _ _ => Except.ok "" }
      "nllb" "eng_Latn" "fra_Latn" (by decide)).1⟩

/-- C2: when the selected model's status is not downloaded (or absent),
the auto-translate effect never issues a request; `handleModelSelect`
leaves the selection unchanged for a model whose status is not
downloaded; and the spec-modelled dispatcher fails with `ModelNotReady`
for a known backend that is not downloaded+verified. -/
theorem model_not_ready_never_dispatches (s : AppState) (sel : SelectorState)
    (modelId : String) (env : DispatcherEnv)
    (backend_id text source_code target_code : String)
    (hs : statusDownloaded s.modelStatus = false)
    (hsel : statusDownloaded (sel.modelStatuses modelId) = false)
    (htext : jsTrim text ≠ "")
    (hknown : backend_id ∈ env.knownBackends)
    (hdown : env.isDownloadedVerified backend_id = false) :
    (∀ b, autoTranslateEffect s ≠ AutoTranslateAction.request b) ∧
    (handleModelSelect sel modelId).selectedModelId = sel.selectedModelId ∧
    dispatchTranslate env backend_id text source_code target_code =
      Except.error DispatchError.ModelNotReady := by
  refine ⟨?_, ?_, ?_⟩
  · intro b
    unfold autoTranslateEffect
    split_ifs <;> simp_all
  · simp [handleModelSelect, hsel]
  · simp [dispatchTranslate, htext, hknown, hdown]

/-- Witness for C2 at concrete inputs. -/
theorem model_not_ready_never_dispatches_witness :
    statusDownloaded (none : Option ModelStatus) = false ∧
    jsTrim "Hello" ≠ "" ∧
    dispatchTranslate
      { knownBackends := ["nllb"], isDownloadedVerified := fun _ => false,
        backendTranslate := fun _ _ _ _ => Except.ok "" }
      "nllb" "Hello" "eng_Latn" "fra_Latn" =
      Except.error DispatchError.ModelNotReady :=
  ⟨rfl, by decide,
    (model_not_ready_never_dispatches
      { inputText := "Hello", translatedText := "", sourceLanguage := "eng_Latn",
        targetLanguage := "fra_Latn", selectedModelId := "nllb",
        modelStatus := none, error := "" }
      { selectedModelId := "nllb", modelStatuses := fun _ => none }
      "translategemma"
      { knownBackends := ["nllb"], isDownloadedVerified := fun _ => false,
        backendTranslate := fun _ _ _ _ => Except.ok "" }
      "nllb" "Hello" "eng_Latn" "fra_Latn"
      rfl rfl (by decide) (by decide) rfl).2.2⟩

/-- C3: whenever the auto-translate effect issues a request, the body's
fields are verbatim the current input text, selected source code,
selected target code, and selected model id. -/
theorem translate_request_passthrough (s : AppState) (b : TranslateRequestBody)
    (h : autoTranslateEffect s = AutoTranslateAction.request b) :
    b.text = s.inputText ∧ b.source_language_code = s.sourceLanguage ∧
    b.target_language_code = s.targetLanguage ∧ b.model_id = s.selectedModelId := by
  unfold autoTranslateEffect at h
  split_ifs at h
  cases h
  exact ⟨rfl, rfl, rfl, rfl⟩

/-- Witness for C3 at a concrete state that does issue a request. -/
theorem translate_request_passthrough_witness :
    autoTranslateEffect
      { inputText := "Hello", translatedText := "", sourceLanguage := "eng_Latn",
        targetLanguage := "fra_Latn", selectedModelId := "nllb",
        modelStatus := some { model_id := "nllb", model_name := "NLLB-200",
                              cache_dir := "", model_path := "",
                              is_downloaded := true, is_loaded := false },
        error := "" } =
      AutoTranslateAction.request
        { text := "Hello", source_language_code := "eng_Latn",
          target_language_code := "fra_Latn", model_id := "nllb" } ∧
    ("Hello" : String) = "Hello" :=
  ⟨by decide,
    ((translate_request_passthrough
      { inputText := "Hello", translatedText := "", sourceLanguage := "eng_Latn",
        targetLanguage := "fra_Latn", selectedModelId := "nllb",
        modelStatus := some { model_id := "nllb", model_name := "NLLB-200",
                              cache_dir := "", model_path := "",
                              is_downloaded := true, is_loaded := false },
        error := "" }
      { text := "Hello", source_language_code := "eng_Latn",
        target_language_code := "fra_Latn", model_id := "nllb" }
      (by decide)).1 : "Hello" = "Hello")⟩

/-- C4: a successful translate response is stored unmodified: the
displayed translation equals the response's `translated_text` field, and
the spec-modelled dispatcher returns the backend's result unchanged. -/
theorem translated_text_unmodified (s : AppState) (resp : TranslateResponse)
    (env : DispatcherEnv) (backend_id text source_code target_code out : String)
    (htext : jsTrim text ≠ "")
    (hknown : backend_id ∈ env.knownBackends)
    (hdown : env.isDownloadedVerified backend_id = true)
    (hb : env.backendTranslate backend_id text source_code target_code = Except.ok out) :
    (applyTranslateSuccess s resp).translatedText = resp.translated_text ∧
    dispatchTranslate env backend_id text source_code target_code = Except.ok out := by
  exact ⟨rfl, by simp [dispatchTranslate, htext, hknown, hdown, hb]⟩

/-- Witness for C4 at concrete inputs. -/
theorem translated_text_unmodified_witness :
    jsTrim "Hello" ≠ "" ∧
    dispatchTranslate
      { knownBackends := ["nllb"], isDownloadedVerified := fun _ => true,
        backendTranslate := fun _ _ _ _ => Except.ok "Bonjour" }
      "nllb" "Hello" "eng_Latn" "fra_Latn" = Except.ok "Bonjour" :=
  ⟨by decide,
    (translated_text_unmodified
      { inputText := "Hello", translatedText := "", sourceLanguage := "eng_Latn",
        targetLanguage := "fra_Latn", selectedModelId := "nllb",
        modelStatus := none, error := "" }
      { translated_text := "Bonjour" }
      { knownBackends := ["nllb"], isDownloadedVerified := fun _ => true,
        backendTranslate := fun _ _ _ _ => Except.ok "Bonjour" }
      "nllb" "Hello" "eng_Latn" "fra_Latn" "Bonjour"
      (by decide) (by decide) rfl rfl).2⟩

/-- C5: the language list built from a backend's name→code table has
exactly one entry per table pair, in order, with the name and code
preserved unchanged. -/
theorem language_list_preserves_table (table : List (String × String))
    (i : Nat) (hi : i < table.length) :
    (buildLanguageList table).length = table.length ∧
    (buildLanguageList table)[i]? =
      some { name := (table.get ⟨i, hi⟩).1, code := (table.get ⟨i, hi⟩).2 } := by
  constructor
  · simp [buildLanguageList]
  · simp [buildLanguageList, List.getElem?_map, List.getElem?_eq_getElem hi]

/-- Witness for C5 on a concrete two-entry table. -/
theorem language_list_preserves_table_witness :
    (0 : Nat) < ([("English", "eng_Latn"), ("French", "fra_Latn")] : List (String × String)).length ∧
    (buildLanguageList [("English", "eng_Latn"), ("French", "fra_Latn")]).length = 2 :=
  ⟨by decide,
    (language_list_preserves_table [("English", "eng_Latn"), ("French", "fra_Latn")]
      0 (by decide)).1⟩

/-- C9: `handleSwapLanguages` exchanges source with target language and
input with translated text, and applying it twice restores all four
fields. -/
theorem swap_languages_involution (s : FullState) :
    ((handleSwapLanguages (handleSwapLanguages s)).app.sourceLanguage = s.app.sourceLanguage ∧
     (handleSwapLanguages (handleSwapLanguages s)).app.targetLanguage = s.app.targetLanguage ∧
     (handleSwapLanguages (handleSwapLanguages s)).app.inputText = s.app.inputText ∧
     (handleSwapLanguages (handleSwapLanguages s)).app.translatedText = s.app.translatedText) ∧
    ((handleSwapLanguages s).app.sourceLanguage = s.app.targetLanguage ∧
     (handleSwapLanguages s).app.targetLanguage = s.app.sourceLanguage ∧
     (handleSwapLanguages s).app.inputText = s.app.translatedText ∧
     (handleSwapLanguages s).app.translatedText = s.app.inputText) :=
  ⟨⟨rfl, rfl, rfl, rfl⟩, ⟨rfl, rfl, rfl, rfl⟩⟩

/-- C10: `isLanguageSupported` is true exactly when
`getVoicesForLanguage` is non-empty, and a code absent from
`NLLB_TO_BCP47` maps to no voices, so text-to-speech is reported
unsupported for it. -/
theorem tts_supported_iff_voices (voices : List Voice) (code : String)
    (habsent : NLLB_TO_BCP47.find? (fun p => p.1 == code) = none) :
    (∀ vs c, isLanguageSupported vs c = true ↔ getVoicesForLanguage vs c ≠ []) ∧
    getVoicesForLanguage voices code = [] ∧
    isLanguageSupported voices code = false := by
  refine ⟨?_, ?_, ?_⟩
  · intro vs c
    simp [isLanguageSupported, List.length_pos]
  · simp [getVoicesForLanguage, nllbToBcp47, habsent]
  · simp [isLanguageSupported, getVoicesForLanguage, nllbToBcp47, habsent]

/-- Witness for C10 at `epo_Latn`, which has no `NLLB_TO_BCP47` entry,
with one English voice loaded. -/
theorem tts_supported_iff_voices_witness :
    NLLB_TO_BCP47.find? (fun p => p.1 == "epo_Latn") = none ∧
    getVoicesForLanguage [{ name := "Alice", lang := "en-US" }] "epo_Latn" = [] :=
  ⟨by decide,
    (tts_supported_iff_voices [{ name := "Alice", lang := "en-US" }] "epo_Latn"
      (by decide)).2.1⟩

/-- Parsing back a stored JSON array of strings yields exactly that
list. -/
theorem parseStoredLanguages_roundtrip (u : List String) :
    parseStoredLanguages (some (Json.arr (u.map Json.str))) = u := by
  induction u with
  | nil => rfl
  | cons a t ih =>
      simp only [parseStoredLanguages, List.map_cons, List.filterMap_cons] at ih ⊢
      rw [ih]

/-- The raw value `addRecentLanguage` stores under its key. -/
theorem addRecentLanguage_at_key (store : Store) (key code : String) :
    addRecentLanguage store key code key =
      some (Json.arr (((code :: (getRecentLanguages store key).filter
        (fun c => c ≠ code)).take MAX_RECENT_LANGUAGES).map Json.str)) := by
  show (if key = key then _ else store key) = _
  rw [if_pos rfl]

/-- The list read back right after `addRecentLanguage`. -/
theorem getRecentLanguages_add (store : Store) (key code : String) :
    getRecentLanguages (addRecentLanguage store key code) key =
      (code :: (getRecentLanguages store key).filter (fun c => c ≠ code)).take
        MAX_RECENT_LANGUAGES := by
  show parseStoredLanguages (addRecentLanguage store key code key) = _
  rw [addRecentLanguage_at_key]
  exact parseStoredLanguages_roundtrip _

/-- C8: after `addRecentLanguage(key, code)`, `getRecentLanguages(key)`
starts with the code, contains it exactly once, has length at most
`MAX_RECENT_LANGUAGES`, and its tail is the previous list with the code
removed, in order, truncated to fit; adding the same code twice stores
the same value as adding it once. -/
theorem recent_languages_spec (store : Store) (key code : String) :
    (getRecentLanguages (addRecentLanguage store key code) key).head? = some code ∧
    (getRecentLanguages (addRecentLanguage store key code) key).count code = 1 ∧
    (getRecentLanguages (addRecentLanguage store key code) key).length ≤
      MAX_RECENT_LANGUAGES ∧
    (getRecentLanguages (addRecentLanguage store key code) key).tail =
      ((getRecentLanguages store key).filter (fun c => c ≠ code)).take
        (MAX_RECENT_LANGUAGES - 1) ∧
    addRecentLanguage (addRecentLanguage store key code) key code key =
      addRecentLanguage store key code key := by
  have hget := getRecentLanguages_add store key code
  set r := (getRecentLanguages store key).filter (fun c => c ≠ code) with hr
  have hcons : (code :: r).take MAX_RECENT_LANGUAGES = code :: r.take 4 := rfl
  have hnot : code ∉ r := by
    intro hmem
    rw [hr] at hmem
    simp [List.mem_filter] at hmem
  have hnot4 : code ∉ r.take 4 := fun hmem => hnot (List.take_subset _ _ hmem)
  have hcount : (r.take 4).count code = 0 := List.count_eq_zero.mpr hnot4
  refine ⟨?_, ?_, ?_, ?_, ?_⟩
  · rw [hget, hcons]
    rfl
  · rw [hget, hcons, List.count_cons_self, hcount]
  · rw [hget]
    exact List.length_take_le _ _
  · rw [hget, hcons]
    rfl
  · rw [addRecentLanguage_at_key (addRecentLanguage store key code) key code,
      addRecentLanguage_at_key store key code, hget, hcons]
    have hfilter : (code :: r.take 4).filter (fun c => c ≠ code) = r.take 4 := by
      have h0 : (code :: r.take 4).filter (fun c => c ≠ code) =
          (r.take 4).filter (fun c => c ≠ code) := by
        simp [List.filter_cons]
      rw [h0]
      refine List.filter_eq_self.mpr fun a ha => ?_
      have har : a ∈ r := List.take_subset _ _ ha
      rw [hr] at har
      simpa using (List.mem_filter.mp har).2
    rw [hfilter]
    have htt : (code :: r.take 4).take MAX_RECENT_LANGUAGES = code :: (r.take 4).take 4 := rfl
    rw [htt, List.take_take, Nat.min_self]

/-- Arrivals while a DownloadTask is in flight only register waiters:
the presence flag, the task, and the transfer count are untouched. -/
theorem arriveN_inflight (desc : BackendDescriptor) (credential : Option String)
    (n : Nat) (st : CoordState) (hp : st.present = false) (hi : st.inflight = true) :
    arriveN desc credential n st = { st with waiters := st.waiters + n } := by
  induction n generalizing st with
  | zero => rfl
  | succ n ih =>
      rw [arriveN]
      have h1 : (ensureDownloadedArrive desc credential st).1 =
          { st with waiters := st.waiters + 1 } := by
        simp [ensureDownloadedArrive, hp, hi]
      rw [h1, ih { st with waiters := st.waiters + 1 } hp hi]
      have h2 : st.waiters + 1 + n = st.waiters + (n + 1) := by omega
      rw [h2]

/-- C6: N ≥ 1 callers concurrently entering `ensure_downloaded(id)` on a
backend that is absent with no task in flight start exactly one network
transfer, and when the task completes every one of the N callers observes
success and the artifacts are present. -/
theorem ensure_downloaded_single_flight (desc : BackendDescriptor)
    (credential : Option String) (n : Nat) (st : CoordState)
    (hn : 1 ≤ n) (hp : st.present = false) (hi : st.inflight = false)
    (hw : st.waiters = 0)
    (hauth : (desc.requires_auth && credential.isNone) = false) :
    (arriveN desc credential n st).transfers = st.transfers + 1 ∧
    (completeTask (arriveN desc credential n st)).2 =
      List.replicate n (Except.ok ()) ∧
    (completeTask (arriveN desc credential n st)).1.present = true ∧
    (completeTask (arriveN desc credential n st)).1.inflight = false := by
  obtain ⟨m, rfl⟩ : ∃ m, n = m + 1 := ⟨n - 1, by omega⟩
  have hstep : (ensureDownloadedArrive desc credential st).1 =
      CoordState.mk st.present true (st.waiters + 1) (st.transfers + 1) := by
    simp [ensureDownloadedArrive, hp, hi, hauth]
  have hrest : arriveN desc credential (m + 1) st =
      CoordState.mk st.present true (st.waiters + 1 + m) (st.transfers + 1) := by
    rw [arriveN, hstep, arriveN_inflight desc credential m
      (CoordState.mk st.present true (st.waiters + 1) (st.transfers + 1)) hp rfl]
  rw [hrest]
  have hwn : st.waiters + 1 + m = m + 1 := by omega
  refine ⟨rfl, ?_, ?_, ?_⟩
  · simp [completeTask, hwn]
  · simp [completeTask]
  · simp [completeTask]

/-- Witness for C6: three concurrent callers on a cold, auth-free
backend perform one transfer and all see success. -/
theorem ensure_downloaded_single_flight_witness :
    (arriveN
      { identifier := "nllb", repo_id := "facebook/nllb-200-distilled-600M",
        display_name := "NLLB-200", size_estimate := "~2.5GB", requires_auth := false }
      none 3
      { present := false, inflight := false, waiters := 0, transfers := 0 }).transfers = 1 :=
  (ensure_downloaded_single_flight
    { identifier := "nllb", repo_id := "facebook/nllb-200-distilled-600M",
      display_name := "NLLB-200", size_estimate := "~2.5GB", requires_auth := false }
    none 3
    { present := false, inflight := false, waiters := 0, transfers := 0 }
    (by decide) rfl rfl rfl (by decide)).1

/-- C7: for a backend whose descriptor requires auth, with no credential
in the environment and artifacts absent, `ensure_downloaded` fails
immediately with `AuthenticationRequired` and the coordinator state —
including the transport's transfer count — is unchanged. -/
theorem auth_required_fails_before_network (desc : BackendDescriptor)
    (st : CoordState)
    (ha : desc.requires_auth = true) (hp : st.present = false)
    (hi : st.inflight = false) :
    ensureDownloadedArrive desc none st =
      (st, ArriveResult.done (Except.error CoordError.AuthenticationRequired)) ∧
    (ensureDownloadedArrive desc none st).1.transfers = st.transfers := by
  have h : ensureDownloadedArrive desc none st =
      (st, ArriveResult.done (Except.error CoordError.AuthenticationRequired)) := by
    simp [ensureDownloadedArrive, hp, hi, ha]
  exact ⟨h, by rw [h]⟩

/-- Witness for C7 on a concrete auth-requiring backend with a fresh
transport (zero transfers before and after). -/
theorem auth_required_fails_before_network_witness :
    ensureDownloadedArrive
      { identifier := "translategemma", repo_id := "google/translategemma-4b-it",
        display_name := "TranslateGemma", size_estimate := "~8GB", requires_auth := true }
      none
      { present := false, inflight := false, waiters := 0, transfers := 0 } =
      ({ present := false, inflight := false, waiters := 0, transfers := 0 },
        ArriveResult.done (Except.error CoordError.AuthenticationRequired)) :=
  (auth_required_fails_before_network
    { identifier := "translategemma", repo_id := "google/translategemma-4b-it",
      display_name := "TranslateGemma", size_estimate := "~8GB", requires_auth := true }
    { present := false, inflight := false, waiters := 0, transfers := 0 }
    rfl rfl rfl).1

end Babelo
